import Mathlib

/-!
Verification of the rdna_stack repository: a Python wrapper
(`python/__init__.py`) over a native extension `rdna_py` that the build
script compiles from C++ sources not present in this source set.

Two layers are embedded here:

* the literal Python wrapper code (device-string parsing in
  `device.__init__` / `tf_device.__init__`, the `current_device` /
  `set_device` / `empty_cache` / `memory_allocated` placeholder bodies,
  `_check_availability`, and the `__enter__` / `__exit__` logic of the two
  context-manager classes);

* the missing native core (device registry, current-device state, caching
  allocator), which the wrapper only declares.  Those definitions are
  modelled from the specification and carry a doc comment starting with
  `Modelled from the spec:`.
-/

/-- Error kinds of the core contract (spec section 7): `Unavailable`,
`OutOfRange`, `InvalidArgument`, `OutOfMemory`.  Python's `ValueError`
raised by the wrapper constructors corresponds to `InvalidArgument`. -/
inductive RdnaError
  | Unavailable
  | OutOfRange
  | InvalidArgument
  | OutOfMemory
deriving DecidableEq, Repr

/-! ### Python `int()` parsing

`device.__init__` calls `int(device_str.split(':')[1])`; a non-integer
string makes `int` raise `ValueError`.  `pyInt` embeds CPython's base-10
`int(str)`: surrounding whitespace is stripped, an optional single sign is
allowed, then a nonempty digit run in which single underscores may appear
between digits.  (Unicode digits are not modelled; every input exercised
here is ASCII.) -/

/-! Python string operations are embedded as structurally recursive
functions on `List Char` (so concrete instances reduce by `decide`);
`String.data` bridges from string literals. -/

deriving instance DecidableEq for Except

/-- `s.startswith(p)` on character lists. -/
def startsWithChars : List Char → List Char → Bool
  | [], _ => true
  | _ :: _, [] => false
  | p :: ps, c :: cs => p == c && startsWithChars ps cs

/-- `s.split(sep)` for a one-character separator, CPython semantics:
every occurrence splits, adjacent separators give empty fields, the empty
string gives `[[]]`. -/
def splitOnCharAux (c : Char) : List Char → List Char → List (List Char)
  | [], acc => [acc.reverse]
  | d :: rest, acc =>
      if d == c then acc.reverse :: splitOnCharAux c rest []
      else splitOnCharAux c rest (d :: acc)

/-- `s.split(c)` on character lists. -/
def splitOnChar (c : Char) (l : List Char) : List (List Char) :=
  splitOnCharAux c l []

/-- `c in s` on character lists. -/
def hasChar (c : Char) : List Char → Bool
  | [] => false
  | d :: rest => d == c || hasChar c rest

/-- `l[n]` with a default for the out-of-bounds case (the Python code
only indexes positions it has just checked to exist). -/
def nthOr (dflt : List Char) : List (List Char) → Nat → List Char
  | [], _ => dflt
  | a :: _, 0 => a
  | _ :: rest, n + 1 => nthOr dflt rest n

/-- Whitespace stripped by CPython's `int()` (ASCII subset). -/
def isPySpace (c : Char) : Bool :=
  c == ' ' || c == '\t' || c == '\n' || c == '\r'

/-- `s.strip()` on character lists. -/
def stripChars (l : List Char) : List Char :=
  ((l.dropWhile isPySpace).reverse.dropWhile isPySpace).reverse

/-- Digit-run tail: after a first digit, each further character is a digit
or a single underscore followed by a digit.  Accumulates the value. -/
def pyDigitsAux (acc : Nat) : List Char → Option Nat
  | [] => some acc
  | '_' :: [] => none
  | '_' :: c :: rest =>
      if c.isDigit then pyDigitsAux (acc * 10 + (c.toNat - 48)) rest else none
  | c :: rest =>
      if c.isDigit then pyDigitsAux (acc * 10 + (c.toNat - 48)) rest else none

/-- A digit run must start with a digit. -/
def pyDigitsStart : List Char → Option Nat
  | [] => none
  | c :: rest =>
      if c.isDigit then pyDigitsAux (c.toNat - 48) rest else none

/-- Optional sign, then a digit run. -/
def pyIntCore : List Char → Option Int
  | '+' :: rest => (pyDigitsStart rest).map Int.ofNat
  | '-' :: rest => (pyDigitsStart rest).map (fun n => -(Int.ofNat n))
  | rest => (pyDigitsStart rest).map Int.ofNat

/-- CPython `int(s)` for base 10 on a character list: `none` models
`ValueError`. -/
def pyIntChars (l : List Char) : Option Int :=
  pyIntCore (stripChars l)

/-- CPython `int(s)` for base 10: `none` models `ValueError`. -/
def pyInt (s : String) : Option Int :=
  pyIntChars s.data

/-! ### The wrapper constructors (translated from `python/__init__.py`) -/

/-- `device.__init__` (lines 69-76): accepts strings starting with
`rdna`; with a `:` present the index is `int(split(':')[1])`, otherwise
`0`; any other string raises `ValueError` (= `InvalidArgument`), and a
non-integer index makes `int` raise `ValueError` as well. -/
def deviceInitChars (l : List Char) : Except RdnaError Int :=
  if startsWithChars "rdna".data l then
    if hasChar ':' l then
      match pyIntChars (nthOr [] (splitOnChar ':' l) 1) with
      | some n => .ok n
      | none => .error .InvalidArgument
    else .ok 0
  else .error .InvalidArgument

/-- `device.__init__` on a string. -/
def device_init (device_str : String) : Except RdnaError Int :=
  deviceInitChars device_str.data

/-- `tf_device.__init__` (lines 90-98): accepts strings starting with
`/device:RDNA`; with more than two `:`-separated parts the index is
`int(parts[2])`, otherwise `0`; any other string raises `ValueError`. -/
def tfDeviceInitChars (l : List Char) : Except RdnaError Int :=
  if startsWithChars "/device:RDNA".data l then
    let parts := splitOnChar ':' l
    if parts.length > 2 then
      match pyIntChars (nthOr [] parts 2) with
      | some n => .ok n
      | none => .error .InvalidArgument
    else .ok 0
  else .error .InvalidArgument

/-- `tf_device.__init__` on a string. -/
def tf_device_init (device_str : String) : Except RdnaError Int :=
  tfDeviceInitChars device_str.data

/-! ### The literal wrapper placeholders (translated from
`python/__init__.py`)

The wrapper's module-level mutable state is the single flag `_available`
set at import time; `current_device` and `set_device` touch no state at
all: `current_device` returns the literal `0` and `set_device`'s body is
`pass` (returns Python `None`, embedded as `Option.none`). -/

/-- The wrapper module's mutable state: only `_available` exists. -/
structure PyModuleState where
  available : Bool
deriving DecidableEq, Repr

/-- `current_device` (lines 47-54): body is `return 0`. -/
def py_current_device (_s : PyModuleState) : Nat := 0

/-- `set_device` (lines 56-63): body is `pass`; returns `None` and leaves
the module state untouched. -/
def py_set_device (_device_id : Int) (s : PyModuleState) :
    Option Int × PyModuleState :=
  (none, s)

/-- Operations a client can run against the wrapper that could, in
principle, affect the current device: direct `set_device` calls and the
`__enter__` / `__exit__` bodies of `device` and `tf_device` (each of which
only reads `current_device` and calls `set_device`). -/
inductive PyOp
  | setDev (i : Int)
  | devEnter (device_id : Int)
  | devExit (prev : Int)
  | tfEnter (device_id : Int)
  | tfExit (prev : Int)
deriving DecidableEq, Repr

/-- One wrapper operation.  `__enter__` is `prev = current_device();
set_device(id)`; `__exit__` is `set_device(prev)`; both reduce to
`py_set_device` calls on the module state. -/
def pyStep (op : PyOp) (s : PyModuleState) : PyModuleState :=
  match op with
  | .setDev i => (py_set_device i s).2
  | .devEnter device_id => (py_set_device device_id s).2
  | .devExit prev => (py_set_device prev s).2
  | .tfEnter device_id => (py_set_device device_id s).2
  | .tfExit prev => (py_set_device prev s).2

/-- Run a sequence of wrapper operations. -/
def runPyOps (ops : List PyOp) (s : PyModuleState) : PyModuleState :=
  ops.foldl (fun st op => pyStep op st) s

/-! ### The missing native core

`set_device`, `current_device`, `get_device_properties`, `empty_cache`,
`memory_allocated` and `max_memory_allocated` carry the body comment
"This will be implemented in the C++ bindings"; the C++ sources of the
`rdna_py` extension are not in this source set.  The definitions below
model that core from the specification. -/

/-- Modelled from the spec: raw device information returned by the
driver discovery primitive `driverEnumerateDevices()`. -/
structure RawDeviceInfo where
  name : String
  architecture : String
  totalMemoryBytes : Nat
  computeUnitCount : Nat
deriving DecidableEq, Repr

/-- Modelled from the spec: immutable `DeviceDescriptor`, created once at
registry initialization; `index` is the ordinal identifier. -/
structure DeviceDescriptor where
  index : Nat
  name : String
  architecture : String
  totalMemoryBytes : Nat
  computeUnitCount : Nat
deriving DecidableEq, Repr

/-- Modelled from the spec: registry initialization assigns consecutive
ordinal indices, starting at `i`, to the raw devices the driver reports. -/
def mkDescriptorsFrom (i : Nat) : List RawDeviceInfo → List DeviceDescriptor
  | [] => []
  | r :: rest =>
      ⟨i, r.name, r.architecture, r.totalMemoryBytes, r.computeUnitCount⟩ ::
        mkDescriptorsFrom (i + 1) rest

/-- Modelled from the spec: discovery runs once at initialization and
produces the descriptor list, ordinally indexed from `0`. -/
def mkDescriptors (raw : List RawDeviceInfo) : List DeviceDescriptor :=
  mkDescriptorsFrom 0 raw

/-- Modelled from the spec: `deviceCount()` is the number of discovered
devices, `0` when unavailable. -/
def deviceCount (devs : List DeviceDescriptor) : Nat :=
  devs.length

/-- Modelled from the spec: `getDeviceProperties(index)` fails with
`OutOfRange` when `index` is not in `[0, deviceCount)`. -/
def getDeviceProperties (devs : List DeviceDescriptor) (i : Int) :
    Except RdnaError DeviceDescriptor :=
  if 0 ≤ i then
    match devs.get? i.toNat with
    | some d => .ok d
    | none => .error .OutOfRange
  else .error .OutOfRange

/-- Modelled from the spec: the native extension's availability probe —
true iff at least one accelerator was discovered; never throws. -/
def rdnaPyIsAvailable (devs : List DeviceDescriptor) : Bool :=
  decide (0 < deviceCount devs)

/-- Modelled from the spec: discovery/initialization is idempotent and
safe; invoking it again after discovery is a no-op and does not fail. -/
def initCore (_devs : List DeviceDescriptor) : Except RdnaError Unit :=
  .ok ()

/-- `_check_availability` (lines 15-29, translated from the source):
`try: if is_available(): initialize(); return True else: return False;
except: return False`.  At import time the name `is_available` still
refers to the star-imported native probe, so the probe and the
initializer are the modelled core functions. -/
def check_availability (devs : List DeviceDescriptor) : Bool :=
  if rdnaPyIsAvailable devs then
    match initCore devs with
    | .ok _ => true
    | .error _ => false
  else false

/-- `is_available` (lines 31-37): returns the module flag `_available`
captured at import time by `_check_availability`.  A total `Bool`-valued
function: it cannot throw. -/
def is_available (devs : List DeviceDescriptor) : Bool :=
  check_availability devs

/-- Modelled from the spec: `CurrentDeviceState` — the process-wide
active device index, next to the fixed device count. -/
structure DeviceState where
  devCount : Nat
  activeIndex : Nat
deriving DecidableEq, Repr

/-- Modelled from the spec: `getCurrentDevice()` returns `activeIndex`. -/
def getCurrentDevice (s : DeviceState) : Nat :=
  s.activeIndex

/-- Modelled from the spec: `setCurrentDevice(index)` fails with
`OutOfRange` if `index` is not below `deviceCount()` (leaving the state
untouched); otherwise it sets `activeIndex` and returns the previous
value. -/
def setCurrentDevice (i : Nat) (s : DeviceState) :
    Except RdnaError Nat × DeviceState :=
  if i < s.devCount then (.ok s.activeIndex, { s with activeIndex := i })
  else (.error .OutOfRange, s)

/-- The `device` context manager's `__enter__`/`__exit__` pair (lines
78-84), run around an arbitrary block body, over the modelled core.
`__enter__` is `self.prev_device = current_device(); set_device(id)`;
if it fails the block never runs and `__exit__` is not called.  The body
may finish normally or raise (return `.error`); on both paths `__exit__`
runs `set_device(self.prev_device)`. -/
def deviceCtxRun (device_id : Nat)
    (body : DeviceState → Except RdnaError Nat × DeviceState)
    (s : DeviceState) : Except RdnaError Nat × DeviceState :=
  let prev := getCurrentDevice s
  match setCurrentDevice device_id s with
  | (.error e, s1) => (.error e, s1)
  | (.ok _, s1) =>
      let (r, s2) := body s1
      match setCurrentDevice prev s2 with
      | (.ok _, s3) => (r, s3)
      | (.error e, s3) => (.error e, s3)

/-- The `tf_device` context manager's `__enter__`/`__exit__` pair (lines
100-106): textually identical to `device`'s. -/
def tfDeviceCtxRun (device_id : Nat)
    (body : DeviceState → Except RdnaError Nat × DeviceState)
    (s : DeviceState) : Except RdnaError Nat × DeviceState :=
  let prev := getCurrentDevice s
  match setCurrentDevice device_id s with
  | (.error e, s1) => (.error e, s1)
  | (.ok _, s1) =>
      let (r, s2) := body s1
      match setCurrentDevice prev s2 with
      | (.ok _, s3) => (r, s3)
      | (.error e, s3) => (.error e, s3)

/-- `device.__init__` composed with the core state: the constructor
parses its argument and touches no device state (its body contains no
state operation), so on the failing path the state is returned as it
was. -/
def deviceMake (device_str : String) (st : DeviceState) :
    Except RdnaError Int × DeviceState :=
  match device_init device_str with
  | .ok i => (.ok i, st)
  | .error e => (.error e, st)

/-- `tf_device.__init__` composed with the core state, as `deviceMake`. -/
def tfDeviceMake (device_str : String) (st : DeviceState) :
    Except RdnaError Int × DeviceState :=
  match tf_device_init device_str with
  | .ok i => (.ok i, st)
  | .error e => (.error e, st)

/-! ### The caching allocator (modelled from the spec)

Blocks carry an id, a device, a size and a Free/InUse state.
`allocatedBytes` and `cachedBytes` are the sums over InUse / Free blocks;
`peakAllocatedBytes` is an explicit high-water-mark counter.  Best-fit
reuse splits the chosen block exactly at the requested size (the spec
leaves the split threshold open); coalescing on `free` is optional in the
spec and not modelled. -/

/-- Modelled from the spec: a memory block's lifecycle state. -/
inductive BlockState
  | Free
  | InUse
deriving DecidableEq, Repr

/-- Modelled from the spec: `MemoryBlock`, owned by the allocator. -/
structure MemoryBlock where
  blockId : Nat
  deviceIndex : Nat
  sizeBytes : Nat
  state : BlockState
deriving DecidableEq, Repr

/-- Modelled from the spec: the allocator's state — the block pool, a
fresh-id counter, and the per-device peak-allocated counter. -/
structure AllocState where
  blocks : List MemoryBlock
  nextId : Nat
  peak : Nat → Nat

/-- Block filter: InUse on device `d`. -/
def isInUseOn (d : Nat) (b : MemoryBlock) : Bool :=
  b.deviceIndex == d && b.state == .InUse

/-- Block filter: Free (retained in the cache) on device `d`. -/
def isFreeOn (d : Nat) (b : MemoryBlock) : Bool :=
  b.deviceIndex == d && b.state == .Free

/-- Total size of a block list. -/
def sumSizes (l : List MemoryBlock) : Nat :=
  (l.map MemoryBlock.sizeBytes).sum

/-- Modelled from the spec: `allocatedBytes(d)` — sum of sizes of blocks
currently InUse on device `d` (the statistic `memory_allocated` reads). -/
def allocatedBytes (d : Nat) (s : AllocState) : Nat :=
  sumSizes (s.blocks.filter (isInUseOn d))

/-- Modelled from the spec: `cachedBytes(d)` — sum of sizes of blocks
Free but retained on device `d`. -/
def cachedBytes (d : Nat) (s : AllocState) : Nat :=
  sumSizes (s.blocks.filter (isFreeOn d))

/-- Modelled from the spec: `peakAllocatedBytes(d)` (the statistic
`max_memory_allocated` reads). -/
def peakAllocatedBytes (d : Nat) (s : AllocState) : Nat :=
  s.peak d

/-- Does a block satisfy an allocation request of `n` bytes on device
`d`? -/
def blockFits (d n : Nat) (b : MemoryBlock) : Bool :=
  b.deviceIndex == d && b.state == .Free && decide (n ≤ b.sizeBytes)

/-- Modelled from the spec: best-fit — the smallest Free block of the
device whose size is at least the request. -/
def bestFit (d n : Nat) (l : List MemoryBlock) : Option MemoryBlock :=
  (l.filter (blockFits d n)).foldl
    (fun acc b =>
      match acc with
      | none => some b
      | some c => if b.sizeBytes < c.sizeBytes then some b else some c)
    none

/-- Mark the block with id `bid` InUse, splitting off the remainder
beyond `n` bytes as a fresh Free block with id `newId`. -/
def splitBlock (bid newId n : Nat) : List MemoryBlock → List MemoryBlock
  | [] => []
  | b :: rest =>
      if b.blockId == bid then
        if n < b.sizeBytes then
          { b with sizeBytes := n, state := .InUse } ::
            ⟨newId, b.deviceIndex, b.sizeBytes - n, .Free⟩ :: rest
        else
          { b with state := .InUse } :: rest
      else b :: splitBlock bid newId n rest

/-- Raise device `d`'s peak counter to the current `allocatedBytes`. -/
def updatePeak (d : Nat) (s : AllocState) : AllocState :=
  { s with peak := fun e => if e == d then max (s.peak e) (allocatedBytes d s) else s.peak e }

/-- Modelled from the spec: `allocate(deviceIndex, sizeBytes)`.  A
zero-byte request fails with `InvalidArgument`.  Otherwise the best-fit
Free block is reused (split at the request size); on a cache miss the
underlying driver is asked for a fresh block — `driverOk` is the driver
oracle, `false` meaning the driver allocation fails, which surfaces as
`OutOfMemory`.  On success `peakAllocatedBytes` is raised to the new
`allocatedBytes` and the block id is returned. -/
def allocate (driverOk : Bool) (d n : Nat) (s : AllocState) :
    Except RdnaError Nat × AllocState :=
  if n == 0 then (.error .InvalidArgument, s)
  else
    match bestFit d n s.blocks with
    | some b =>
        let s1 : AllocState :=
          { blocks := splitBlock b.blockId s.nextId n s.blocks
            nextId := s.nextId + 1
            peak := s.peak }
        (.ok b.blockId, updatePeak d s1)
    | none =>
        if driverOk then
          let s1 : AllocState :=
            { blocks := s.blocks ++ [⟨s.nextId, d, n, .InUse⟩]
              nextId := s.nextId + 1
              peak := s.peak }
          (.ok s.nextId, updatePeak d s1)
        else (.error .OutOfMemory, s)

/-- Mark the InUse block with id `bid` Free. -/
def releaseBlock (bid : Nat) : List MemoryBlock → List MemoryBlock
  | [] => []
  | b :: rest =>
      if b.blockId == bid && b.state == .InUse then
        { b with state := .Free } :: rest
      else b :: releaseBlock bid rest

/-- Modelled from the spec: `free(block)` — marks the block Free (moving
its bytes from `allocatedBytes` to `cachedBytes`); never fails. -/
def freeBlock (bid : Nat) (s : AllocState) :
    Except RdnaError Unit × AllocState :=
  (.ok (), { s with blocks := releaseBlock bid s.blocks })

/-- Does the block belong to the device selection (a concrete device, or
all devices when unspecified)? -/
def onDevice (dOpt : Option Nat) (b : MemoryBlock) : Bool :=
  match dOpt with
  | none => true
  | some d => b.deviceIndex == d

/-- Modelled from the spec: `emptyCache(deviceIndex?)` returns every Free
block of the selected device(s) to the driver. -/
def emptyCache (dOpt : Option Nat) (s : AllocState) : AllocState :=
  { s with blocks := s.blocks.filter (fun b => !(b.state == .Free && onDevice dOpt b)) }

/-- `empty_cache` as an operation: it always succeeds (`.ok ()`). -/
def emptyCacheOp (dOpt : Option Nat) (s : AllocState) :
    Except RdnaError Unit × AllocState :=
  (.ok (), emptyCache dOpt s)

/-- An allocator client operation, for quantifying over call sequences. -/
inductive AllocOp
  | alloc (driverOk : Bool) (d n : Nat)
  | release (bid : Nat)
  | empty (dOpt : Option Nat)

/-- One allocator operation (result value discarded). -/
def allocStep (op : AllocOp) (s : AllocState) : AllocState :=
  match op with
  | .alloc driverOk d n => (allocate driverOk d n s).2
  | .release bid => (freeBlock bid s).2
  | .empty dOpt => (emptyCacheOp dOpt s).2

/-- Run a sequence of allocator operations. -/
def runAllocOps (ops : List AllocOp) (s : AllocState) : AllocState :=
  ops.foldl (fun st op => allocStep op st) s

/-! ### Example states used by witnesses -/

/-- An allocator state with one InUse and one Free block on device 0. -/
def exampleAllocMixed : AllocState :=
  { blocks := [⟨0, 0, 4, .InUse⟩, ⟨1, 0, 8, .Free⟩], nextId := 2, peak := fun _ => 0 }

/-- An allocator state with only InUse blocks (no cached Free block). -/
def exampleAllocBusy : AllocState :=
  { blocks := [⟨0, 0, 4, .InUse⟩, ⟨1, 1, 2, .InUse⟩], nextId := 2, peak := fun _ => 0 }

/-! ### Theorems -/

/-- C10: `current_device()` returns `0` in every reachable wrapper state —
its result is unaffected by any prior sequence of `set_device` calls or
`device`/`tf_device` context entries and exits — and `set_device(i)`
returns `None` for every `i`.  This is the literal placeholder behavior
of the wrapper source. -/
theorem C10_current_device_always_zero :
    ∀ (ops : List PyOp) (s : PyModuleState) (i : Int),
      py_current_device (runPyOps ops s) = 0 ∧ (py_set_device i s).1 = none := by
  intro ops s i
  exact ⟨rfl, rfl⟩

/-- C9: identifiers that omit an index default the device to `0`:
`device(s)` yields device id `0` for every `s` that starts with `rdna`
and contains no `:` (e.g. `rdnafoo`), and `tf_device(s)` yields `0` for
every `s` that starts with `/device:RDNA` and has fewer than three
`:`-separated parts. -/
theorem C9_omitted_index_defaults_to_zero :
    ∀ s : String,
      (startsWithChars "rdna".data s.data = true →
        hasChar ':' s.data = false →
        device_init s = .ok 0) ∧
      (startsWithChars "/device:RDNA".data s.data = true →
        (splitOnChar ':' s.data).length < 3 →
        tf_device_init s = .ok 0) := by
  intro s
  constructor
  · intro h1 h2
    simp [device_init, deviceInitChars, h1, h2]
  · intro h1 h2
    have h3 : ¬((splitOnChar ':' s.data).length > 2) := by omega
    simp [tf_device_init, tfDeviceInitChars, h1, h3]

/-- Witness for C9 at `rdnafoo` and `/device:RDNA`. -/
theorem C9_witness :
    device_init "rdnafoo" = .ok 0 ∧ tf_device_init "/device:RDNA" = .ok 0 :=
  ⟨(C9_omitted_index_defaults_to_zero "rdnafoo").1 (by decide) (by decide),
   (C9_omitted_index_defaults_to_zero "/device:RDNA").2 (by decide) (by decide)⟩

/-- C5: constructing a `device` or `tf_device` context from a malformed
identifier — wrong prefix, or a non-integer index suffix — fails with
`InvalidArgument` (Python `ValueError`), and the constructor performs no
state mutation: on the failing path the device state is returned exactly
as it was. -/
theorem C5_malformed_identifier_rejected :
    ∀ (s : String) (st : DeviceState),
      ((startsWithChars "rdna".data s.data = false ∨
        (hasChar ':' s.data = true ∧
          pyIntChars (nthOr [] (splitOnChar ':' s.data) 1) = none)) →
        deviceMake s st = (.error .InvalidArgument, st)) ∧
      ((startsWithChars "/device:RDNA".data s.data = false ∨
        ((splitOnChar ':' s.data).length > 2 ∧
          pyIntChars (nthOr [] (splitOnChar ':' s.data) 2) = none)) →
        tfDeviceMake s st = (.error .InvalidArgument, st)) := by
  intro s st
  constructor
  · intro h
    have hd : device_init s = .error .InvalidArgument := by
      rcases h with h | ⟨h1, h2⟩
      · simp [device_init, deviceInitChars, h]
      · cases hsw : startsWithChars "rdna".data s.data
        · simp [device_init, deviceInitChars, hsw]
        · simp [device_init, deviceInitChars, hsw, h1, h2]
    simp [deviceMake, hd]
  · intro h
    have hd : tf_device_init s = .error .InvalidArgument := by
      rcases h with h | ⟨h1, h2⟩
      · simp [tf_device_init, tfDeviceInitChars, h]
      · cases hsw : startsWithChars "/device:RDNA".data s.data
        · simp [tf_device_init, tfDeviceInitChars, hsw]
        · simp [tf_device_init, tfDeviceInitChars, hsw, h1, h2]
    simp [tfDeviceMake, hd]

/-- Witness for C5 at a non-integer index suffix (`rdna:abc`,
`/device:RDNA:x`). -/
theorem C5_witness :
    deviceMake "rdna:abc" ⟨1, 0⟩ = (.error .InvalidArgument, ⟨1, 0⟩) ∧
    tfDeviceMake "/device:RDNA:x" ⟨1, 0⟩ = (.error .InvalidArgument, ⟨1, 0⟩) :=
  ⟨(C5_malformed_identifier_rejected "rdna:abc" ⟨1, 0⟩).1
      (Or.inr ⟨by decide, by decide⟩),
   (C5_malformed_identifier_rejected "/device:RDNA:x" ⟨1, 0⟩).2
      (Or.inr ⟨by decide, by decide⟩)⟩

/-- C2: `set_device(index)` (core `setCurrentDevice`) fails with
`OutOfRange` when `index ≥ device_count()` (leaving the state untouched);
otherwise it sets the active index — a subsequent `current_device()`
returns `index` — and returns the previous active index. -/
theorem C2_set_device_contract :
    ∀ (s : DeviceState) (i : Nat),
      (s.devCount ≤ i → setCurrentDevice i s = (.error .OutOfRange, s)) ∧
      (i < s.devCount →
        (setCurrentDevice i s).1 = .ok (getCurrentDevice s) ∧
        getCurrentDevice (setCurrentDevice i s).2 = i) := by
  intro s i
  constructor
  · intro h
    simp [setCurrentDevice, Nat.not_lt.mpr h]
  · intro h
    simp [setCurrentDevice, h, getCurrentDevice]

/-- Witness for C2 with two devices: `setCurrentDevice 5` is rejected,
`setCurrentDevice 1` returns the previous index `0` and makes `1`
current. -/
theorem C2_witness :
    setCurrentDevice 5 ⟨2, 0⟩ = (.error .OutOfRange, ⟨2, 0⟩) ∧
    (setCurrentDevice 1 ⟨2, 0⟩).1 = .ok 0 ∧
    getCurrentDevice (setCurrentDevice 1 ⟨2, 0⟩).2 = 1 :=
  ⟨(C2_set_device_contract ⟨2, 0⟩ 5).1 (by decide),
   (C2_set_device_contract ⟨2, 0⟩ 1).2 (by decide)⟩

/-- C8: `is_available()` never throws (it is a total `Bool`-valued read
of the flag captured at import, and `_check_availability` converts every
exception into `False`), and it returns `true` iff at least one
accelerator was discovered at initialization. -/
theorem C8_is_available_iff_devices :
    ∀ devs : List DeviceDescriptor,
      is_available devs = true ↔ 0 < deviceCount devs := by
  intro devs
  simp [is_available, check_availability, rdnaPyIsAvailable, initCore]

/-- Witness for C8: one discovered device makes `is_available` true. -/
theorem C8_witness :
    is_available (mkDescriptors [⟨"Navi 31", "RDNA3", 8, 32⟩]) = true :=
  (C8_is_available_iff_devices (mkDescriptors [⟨"Navi 31", "RDNA3", 8, 32⟩])).mpr
    (by decide)

/-- C1: for every `device` or `tf_device` context entered while the
current device is `p`, after the with-block exits — normally or through
an exception raised in the block (a body returning `.error`) — the
current device is `p` again: `__exit__` restores the captured previous
device on every exit path.  The body is arbitrary but cannot change the
device count (fixed at discovery), and the state is a reachable one
(`activeIndex < devCount`); entering requires a valid target index. -/
theorem C1_context_restores_previous_device :
    ∀ (device_id : Nat)
      (body : DeviceState → Except RdnaError Nat × DeviceState)
      (s : DeviceState),
      (∀ st, ((body st).2).devCount = st.devCount) →
      device_id < s.devCount →
      s.activeIndex < s.devCount →
      getCurrentDevice (deviceCtxRun device_id body s).2 = getCurrentDevice s ∧
      getCurrentDevice (tfDeviceCtxRun device_id body s).2 = getCurrentDevice s := by
  intro device_id body s hbody henter hinv
  have h1 : setCurrentDevice device_id s =
      (.ok s.activeIndex, { s with activeIndex := device_id }) := by
    simp [setCurrentDevice, henter]
  obtain ⟨r, s2, hrun⟩ :
      ∃ r s2, body { s with activeIndex := device_id } = (r, s2) :=
    ⟨_, _, rfl⟩
  have hcount : s2.devCount = s.devCount := by
    have h := hbody { s with activeIndex := device_id }
    rw [hrun] at h
    exact h
  have hlt : s.activeIndex < s2.devCount := by
    rw [hcount]
    exact hinv
  have h2 : setCurrentDevice s.activeIndex s2 =
      (.ok s2.activeIndex, { s2 with activeIndex := s.activeIndex }) := by
    simp [setCurrentDevice, hlt]
  constructor
  · simp [deviceCtxRun, getCurrentDevice, h1, hrun, h2]
  · simp [tfDeviceCtxRun, getCurrentDevice, h1, hrun, h2]

/-- Witness for C1: two devices, current device `0`, context for device
`1`, body raising `OutOfMemory`; the current device is `0` afterwards. -/
theorem C1_witness :
    getCurrentDevice
        (deviceCtxRun 1 (fun st => (.error .OutOfMemory, st)) ⟨2, 0⟩).2 =
      getCurrentDevice ⟨2, 0⟩ ∧
    getCurrentDevice
        (tfDeviceCtxRun 1 (fun st => (.error .OutOfMemory, st)) ⟨2, 0⟩).2 =
      getCurrentDevice ⟨2, 0⟩ :=
  C1_context_restores_previous_device 1 (fun st => (.error .OutOfMemory, st))
    ⟨2, 0⟩ (fun _ => rfl) (by decide) (by decide)

/-- C3: `get_device_properties(index)` fails with `OutOfRange` for every
index outside `[0, device_count())`; in particular at
`index = device_count()`, and at `0` when no device was discovered. -/
theorem C3_get_device_properties_out_of_range :
    ∀ (devs : List DeviceDescriptor) (i : Int),
      ((i < 0 ∨ (deviceCount devs : Int) ≤ i) →
        getDeviceProperties devs i = .error .OutOfRange) ∧
      getDeviceProperties devs (deviceCount devs) = .error .OutOfRange ∧
      (deviceCount devs = 0 →
        getDeviceProperties devs 0 = .error .OutOfRange) := by
  intro devs i
  have main : ∀ j : Int, (j < 0 ∨ (deviceCount devs : Int) ≤ j) →
      getDeviceProperties devs j = .error .OutOfRange := by
    intro j hj
    rcases hj with hj | hj
    · rw [getDeviceProperties, if_neg (by omega)]
    · have h0 : (0 : Int) ≤ j := by
        simp [deviceCount] at hj
        omega
      have hlen : devs.length ≤ j.toNat := by
        simp [deviceCount] at hj
        omega
      rw [getDeviceProperties, if_pos h0, List.get?_eq_none.mpr hlen]
  refine ⟨main i, main _ (Or.inr le_rfl), fun h => main 0 (Or.inr (by simp [h]))⟩

/-- Witness for C3: the empty registry rejects `-1` and `0`. -/
theorem C3_witness :
    getDeviceProperties [] (-1) = .error .OutOfRange ∧
    getDeviceProperties [] 0 = .error .OutOfRange :=
  ⟨(C3_get_device_properties_out_of_range [] (-1)).1 (Or.inl (by decide)),
   (C3_get_device_properties_out_of_range [] 0).2.2 (by decide)⟩

/-- Length of the registry built from raw discovery data. -/
theorem mkDescriptorsFrom_length (l : List RawDeviceInfo) :
    ∀ k : Nat, (mkDescriptorsFrom k l).length = l.length := by
  induction l with
  | nil => intro k; rfl
  | cons r rest ih =>
      intro k
      simp [mkDescriptorsFrom, ih]

/-- The registry's `j`-th descriptor carries ordinal `k + j`. -/
theorem mkDescriptorsFrom_get? (l : List RawDeviceInfo) :
    ∀ (k j : Nat), j < l.length →
      ∃ d, (mkDescriptorsFrom k l).get? j = some d ∧ d.index = k + j := by
  induction l with
  | nil =>
      intro k j hj
      simp at hj
  | cons r rest ih =>
      intro k j hj
      cases j with
      | zero => exact ⟨_, rfl, by simp⟩
      | succ j =>
          obtain ⟨d, hd, hidx⟩ := ih (k + 1) j (by simpa using hj)
          exact ⟨d, by simpa [mkDescriptorsFrom] using hd, by omega⟩

/-- C4: for every `index` in `[0, device_count())` of a registry built
at initialization, `get_device_properties(index)` succeeds and the
returned descriptor carries that same ordinal. -/
theorem C4_get_device_properties_index :
    ∀ (raw : List RawDeviceInfo) (i : Int),
      0 ≤ i → i < (deviceCount (mkDescriptors raw) : Int) →
      ∃ d, getDeviceProperties (mkDescriptors raw) i = .ok d ∧
        (d.index : Int) = i := by
  intro raw i h0 hlt
  have hlen : i.toNat < raw.length := by
    simp [deviceCount, mkDescriptors, mkDescriptorsFrom_length] at hlt
    omega
  obtain ⟨d, hd, hidx⟩ := mkDescriptorsFrom_get? raw 0 i.toNat hlen
  refine ⟨d, ?_, ?_⟩
  · rw [getDeviceProperties, if_pos h0]
    rw [mkDescriptors, hd]
  · omega

/-- Witness for C4: a one-device registry returns a descriptor with
ordinal `0` at index `0`. -/
theorem C4_witness :
    ∃ d, getDeviceProperties (mkDescriptors [⟨"Navi 31", "RDNA3", 8, 32⟩]) 0 =
        .ok d ∧ (d.index : Int) = 0 :=
  C4_get_device_properties_index [⟨"Navi 31", "RDNA3", 8, 32⟩] 0
    (by decide) (by decide)

/-- C6: `empty_cache` never fails (`emptyCacheOp` always returns
`.ok ()`), drives the cached-bytes statistic of the affected device(s) to
`0` — for a selected device and for the all-devices form — leaves the
allocated-bytes statistic (`memory_allocated`) of every device unchanged,
and is a no-op when no free blocks exist. -/
theorem C6_empty_cache_contract :
    ∀ (dOpt : Option Nat) (s : AllocState) (d e : Nat),
      (emptyCacheOp dOpt s).1 = .ok () ∧
      cachedBytes d (emptyCache (some d) s) = 0 ∧
      cachedBytes d (emptyCache none s) = 0 ∧
      allocatedBytes e (emptyCache dOpt s) = allocatedBytes e s ∧
      ((∀ b ∈ s.blocks, b.state ≠ BlockState.Free) → emptyCache dOpt s = s) := by
  intro dOpt s d e
  refine ⟨rfl, ?_, ?_, ?_, ?_⟩
  · have hnil :
        ((s.blocks.filter
            (fun b => !(b.state == BlockState.Free && onDevice (some d) b))).filter
          (isFreeOn d)) = [] := by
      rw [List.filter_filter, List.filter_eq_nil_iff]
      intro b hb
      cases hdev : b.deviceIndex == d <;>
        cases hst : b.state == BlockState.Free <;>
          simp [isFreeOn, onDevice, hdev, hst]
    unfold cachedBytes emptyCache
    dsimp only
    rw [hnil]
    rfl
  · have hnil :
        ((s.blocks.filter
            (fun b => !(b.state == BlockState.Free && onDevice none b))).filter
          (isFreeOn d)) = [] := by
      rw [List.filter_filter, List.filter_eq_nil_iff]
      intro b hb
      cases hdev : b.deviceIndex == d <;>
        cases hst : b.state == BlockState.Free <;>
          simp [isFreeOn, onDevice, hdev, hst]
    unfold cachedBytes emptyCache
    dsimp only
    rw [hnil]
    rfl
  · have heq :
        ((s.blocks.filter
            (fun b => !(b.state == BlockState.Free && onDevice dOpt b))).filter
          (isInUseOn e)) = s.blocks.filter (isInUseOn e) := by
      rw [List.filter_filter]
      apply List.filter_congr
      intro b hb
      cases hstate : b.state <;> simp [isInUseOn, hstate]
    unfold allocatedBytes emptyCache
    dsimp only
    rw [heq]
  · intro h
    have heq :
        s.blocks.filter
            (fun b => !(b.state == BlockState.Free && onDevice dOpt b)) =
          s.blocks := by
      rw [List.filter_eq_self]
      intro b hb
      cases hst : b.state with
      | Free => exact absurd hst (h b hb)
      | InUse => simp [hst]
    unfold emptyCache
    rw [heq]

/-- Witness for C6 on a pool with one InUse and one Free block, plus the
no-op clause on a pool with no Free block. -/
theorem C6_witness :
    (emptyCacheOp (some 0) exampleAllocMixed).1 = .ok () ∧
    cachedBytes 0 (emptyCache (some 0) exampleAllocMixed) = 0 ∧
    cachedBytes 0 (emptyCache none exampleAllocMixed) = 0 ∧
    allocatedBytes 0 (emptyCache (some 0) exampleAllocMixed) =
      allocatedBytes 0 exampleAllocMixed ∧
    emptyCache (some 0) exampleAllocBusy = exampleAllocBusy :=
  ⟨(C6_empty_cache_contract (some 0) exampleAllocMixed 0 0).1,
   (C6_empty_cache_contract (some 0) exampleAllocMixed 0 0).2.1,
   (C6_empty_cache_contract (some 0) exampleAllocMixed 0 0).2.2.1,
   (C6_empty_cache_contract (some 0) exampleAllocMixed 0 0).2.2.2.1,
   (C6_empty_cache_contract (some 0) exampleAllocBusy 0 0).2.2.2.2
     (by decide)⟩

/-- Raising the peak counter never lowers it. -/
theorem peak_le_updatePeak (d : Nat) (s t : AllocState) (e : Nat)
    (h : s.peak e ≤ t.peak e) : s.peak e ≤ (updatePeak d t).peak e := by
  unfold updatePeak
  dsimp only
  split
  · exact le_trans h (le_max_left _ _)
  · exact h

/-- `allocate` never lowers any device's peak counter. -/
theorem peak_le_allocate (driverOk : Bool) (d n : Nat) (s : AllocState)
    (e : Nat) :
    s.peak e ≤ ((allocate driverOk d n s).2).peak e := by
  unfold allocate
  dsimp only
  split
  · exact le_rfl
  · split
    · exact peak_le_updatePeak d s _ e le_rfl
    · split
      · exact peak_le_updatePeak d s _ e le_rfl
      · exact le_rfl

/-- No single allocator operation lowers a peak counter. -/
theorem peak_mono_step (op : AllocOp) (s : AllocState) (e : Nat) :
    s.peak e ≤ (allocStep op s).peak e := by
  cases op with
  | alloc driverOk d n => exact peak_le_allocate driverOk d n s e
  | release _ => exact le_rfl
  | empty _ => exact le_rfl

/-- No sequence of allocator operations lowers a peak counter. -/
theorem peak_mono_run (ops : List AllocOp) :
    ∀ (s : AllocState) (e : Nat), s.peak e ≤ (runAllocOps ops s).peak e := by
  induction ops with
  | nil => intro s e; exact le_rfl
  | cons op rest ih =>
      intro s e
      exact le_trans (peak_mono_step op s e) (ih (allocStep op s) e)

/-- C7: `max_memory_allocated(d)` — the peak-allocated-bytes statistic —
is monotonically non-decreasing across every sequence of allocate/free
(and empty-cache) operations, and `empty_cache` leaves it exactly
unchanged. -/
theorem C7_peak_allocated_monotone :
    ∀ (ops : List AllocOp) (s : AllocState) (d : Nat) (dOpt : Option Nat),
      peakAllocatedBytes d s ≤ peakAllocatedBytes d (runAllocOps ops s) ∧
      peakAllocatedBytes d (emptyCache dOpt s) = peakAllocatedBytes d s :=
  fun ops s d _dOpt => ⟨peak_mono_run ops s d, rfl⟩
